import Mathlib

/-!
Verification of the flowflare workflow-tracking engine.

Shallow embedding of the core state-synchronization code:
`src/workflow/integration.ts` (trackStep and the retry/backoff logic),
`src/service/worker.ts` (updateWorkflowRun, syncWorkflowStatus,
handleStartWorkflow, handleGetWorkflowsByRef) and
`src/service/tracker.ts` (queryWorkflows, broadcastUpdate).

JavaScript machine integers do not overflow in the ranges these
functions use, so numbers are modelled as `Nat`; timestamps are `Nat`
milliseconds; JSON blobs are modelled as opaque `String`s; `undefined`
and SQL `NULL` are both `Option.none`.
-/

namespace Flowflare

/-- JS truthiness of an optional string: `undefined`, `null` and `""` are falsy. -/
def strTruthy : Option String → Bool
  | none => false
  | some s => s ≠ ""

/-- JS truthiness of an optional number: `undefined`, `null` and `0` are falsy. -/
def natTruthy : Option Nat → Bool
  | none => false
  | some n => n ≠ 0

/-- JS `a || b` on optional strings. -/
def jsOrStr (a b : Option String) : Option String :=
  if strTruthy a then a else b

/-- JS `a || b` on optional numbers. -/
def jsOrNat (a b : Option Nat) : Option Nat :=
  if natTruthy a then a else b

/-- `StepRetryConfig` from `src/workflow/types.ts`: all fields optional. -/
structure StepRetryConfig where
  maxRetries : Option Nat := none
  baseDelay : Option Nat := none
  backoffType : Option String := none
  currentRetry : Option Nat := none
deriving Repr, DecidableEq

/-- The merged retry configuration after `{...defaultRetryConfig, ...retryConfig}`
in `trackStep` (integration.ts:141-150). -/
structure RetrySettings where
  maxRetries : Nat
  baseDelay : Nat
  backoffType : String
  currentRetry : Nat
deriving Repr, DecidableEq

/-- `{...defaultRetryConfig, ...retryConfig}`: a field present in the caller's
config overrides the default (maxRetries=3, baseDelay=1000,
backoffType="exponential", currentRetry=0). -/
def mergeRetryConfig (rc : StepRetryConfig) : RetrySettings where
  maxRetries := rc.maxRetries.getD 3
  baseDelay := rc.baseDelay.getD 1000
  backoffType := rc.backoffType.getD "exponential"
  currentRetry := rc.currentRetry.getD 0

/-- The thrown step error together with the mutable annotation fields that
`trackStep` reads and writes on it (`nonRetryable`, `retryCount`,
`retryDelay`, `nextRetryAt`). -/
structure TrackedError where
  message : String
  nonRetryable : Bool := false
  retryCount : Option Nat := none
  retryDelay : Option Nat := none
  nextRetryAt : Option Nat := none
deriving Repr, DecidableEq

/-- The `retry` object embedded into a failed step's `state` JSON blob
(integration.ts:221-227). -/
structure StateRetryInfo where
  count : Nat
  maxRetries : Nat
  nextRetryAt : Nat
deriving Repr, DecidableEq

/-- Structural view of the `state` blob a step update carries. -/
inductive StepStateBlob where
  | null
  | result (s : String)
  | failure (error : String) (retry : Option StateRetryInfo)
deriving Repr, DecidableEq

/-- A `step_update` payload as built by `trackStep`. -/
structure StepUpdateData where
  id : Option Nat := none
  workflow_instance_id : String
  step_name : String
  status : String
  step_index : Nat
  state : StepStateBlob := .null
  started_at : Option Nat := none
  completed_at : Option Nat := none
deriving Repr, DecidableEq

/-- A `retry_update` payload as built by `trackStep` (integration.ts:235-240). -/
structure RetryUpdateData where
  workflow_step_id : Nat
  retry_count : Nat
  retry_at : Nat
  last_error : String
deriving Repr, DecidableEq

/-- `error.message || "Unknown error"`. -/
def errMessage (e : TrackedError) : String :=
  if e.message = "" then "Unknown error" else e.message

/-- Everything the `catch` block of `trackStep` (integration.ts:194-269)
produces: the computed retry arithmetic, the failure step update, the
optional retry record, and the error as rethrown to the caller. -/
structure FailureOutcome where
  nextRetry : Nat
  isRetryable : Bool
  retryDelay : Nat
  nextRetryTime : Nat
  stepUpdate : StepUpdateData
  retryRecord : Option RetryUpdateData
  rethrown : TrackedError
deriving Repr, DecidableEq

/-- The `catch` block of `trackStep`, translated statement by statement.
`now` stands for `Date.now()` at the moment of the failure. -/
def trackStepFailure (s : RetrySettings) (stepId : Option Nat)
    (workflowInstanceId stepName : String) (stepIndex : Nat)
    (error : TrackedError) (now : Nat) : FailureOutcome :=
  let nextRetry := s.currentRetry + 1
  let isRetryable := decide (nextRetry ≤ s.maxRetries) && !error.nonRetryable
  let retryDelay :=
    if s.backoffType = "exponential" then s.baseDelay * 2 ^ s.currentRetry
    else s.baseDelay * nextRetry
  let nextRetryTime := now + retryDelay
  let stepUpdate : StepUpdateData :=
    { id := stepId
      workflow_instance_id := workflowInstanceId
      step_name := stepName
      status := if isRetryable then "Retrying" else "Failed"
      step_index := stepIndex
      state := .failure (errMessage error)
        (if isRetryable then some ⟨nextRetry, s.maxRetries, nextRetryTime⟩ else none) }
  if isRetryable then
    let retryRecord : RetryUpdateData :=
      { workflow_step_id := (jsOrNat stepId (some stepIndex)).getD 0
        retry_count := nextRetry
        retry_at := nextRetryTime
        last_error := errMessage error }
    let e1 := { error with
      retryCount := some nextRetry
      retryDelay := some retryDelay
      nextRetryAt := some nextRetryTime }
    let e2 :=
      if e1.nonRetryable then e1
      else if s.maxRetries < nextRetry then { e1 with nonRetryable := true }
      else e1
    ⟨nextRetry, isRetryable, retryDelay, nextRetryTime, stepUpdate, some retryRecord, e2⟩
  else
    ⟨nextRetry, isRetryable, retryDelay, nextRetryTime, stepUpdate, none, error⟩

/-- The observable outcome of one `trackStep` call: the value returned or
error rethrown, the step updates sent (in order), the retry record sent
if any, and the retry arithmetic computed on the failure path. -/
structure TrackOutcome (α : Type) where
  result : Except TrackedError α
  updates : List StepUpdateData
  retryRecord : Option RetryUpdateData := none
  retryDelay : Option Nat := none
  nextRetryTime : Option Nat := none

/-- `trackStep` (integration.ts:132-270). `exec` is the resolved or rejected
outcome of the caller's `execute` thunk; `ser` is `JSON.stringify`/`String`
applied to a successful result; `startUpdateThrows` says whether the
attempt to record the step start threw (the catch at integration.ts:168
swallows it). `stepId` stays `none` because `updateWorkflowStep` resolves
to a boolean, so the `typeof updateResult === "object"` check at
integration.ts:165 never assigns it. -/
def trackStep {α : Type} (ser : α → String) (rc : StepRetryConfig)
    (workflowInstanceId stepName : String) (stepIndex : Nat)
    (startUpdateThrows : Bool) (exec : Except TrackedError α)
    (now : Nat) : TrackOutcome α :=
  let s := mergeRetryConfig rc
  let stepId : Option Nat := none
  let startUpdates : List StepUpdateData :=
    if startUpdateThrows then []
    else [{ workflow_instance_id := workflowInstanceId
            step_name := stepName
            status := "Running"
            step_index := stepIndex
            state := .null
            started_at := some now }]
  match exec with
  | .ok v =>
    let completeUpdate : StepUpdateData :=
      { id := stepId
        workflow_instance_id := workflowInstanceId
        step_name := stepName
        status := "Completed"
        step_index := stepIndex
        state := .result (ser v)
        completed_at := some now }
    { result := .ok v, updates := startUpdates ++ [completeUpdate] }
  | .error e =>
    let fo := trackStepFailure s stepId workflowInstanceId stepName stepIndex e now
    { result := .error fo.rethrown
      updates := startUpdates ++ [fo.stepUpdate]
      retryRecord := fo.retryRecord
      retryDelay := some fo.retryDelay
      nextRetryTime := some fo.nextRetryTime }

/-- A row of the `workflow_runs` table. -/
structure RunRecord where
  id : String
  workflow_id : Option Nat := none
  status : Option String := none
  ref_id : Option String := none
  ref_type : Option String := none
  input_params : Option String := none
  output_result : Option String := none
  metadata : Option String := none
  sleep_until : Option Nat := none
  created_at : Option Nat := none
  updated_at : Option Nat := none
  completed_at : Option Nat := none
deriving Repr, DecidableEq

/-- A partial `run_update` object: a field is `some` exactly when the caller
included that key (the code iterates `Object.entries`, so only included
keys become SET clauses / INSERT columns, worker.ts:730, 760). -/
structure RunPatch where
  id : String
  workflow_id : Option Nat := none
  status : Option String := none
  ref_id : Option String := none
  ref_type : Option String := none
  input_params : Option String := none
  output_result : Option String := none
  metadata : Option String := none
  sleep_until : Option Nat := none
  created_at : Option Nat := none
  updated_at : Option Nat := none
  completed_at : Option Nat := none
deriving Repr, DecidableEq

/-- A SET clause for one column: present in the patch sets it, absent keeps
the stored value. -/
def patchField {α : Type} (p old : Option α) : Option α :=
  match p with
  | some v => some v
  | none => old

/-- The UPDATE branch of `updateWorkflowRun` (worker.ts:726-749): every field
present in the patch is written, then `updated_at = datetime("now")` is
appended last and wins. -/
def applyRunPatch (r : RunRecord) (p : RunPatch) (now : Nat) : RunRecord where
  id := r.id
  workflow_id := patchField p.workflow_id r.workflow_id
  status := patchField p.status r.status
  ref_id := patchField p.ref_id r.ref_id
  ref_type := patchField p.ref_type r.ref_type
  input_params := patchField p.input_params r.input_params
  output_result := patchField p.output_result r.output_result
  metadata := patchField p.metadata r.metadata
  sleep_until := patchField p.sleep_until r.sleep_until
  created_at := patchField p.created_at r.created_at
  updated_at := some now
  completed_at := patchField p.completed_at r.completed_at

/-- The INSERT branch of `updateWorkflowRun` (worker.ts:750-773): the row is
exactly the supplied columns, with `created_at` defaulted to now when falsy
and `updated_at` unconditionally set to now. -/
def insertRunRecord (p : RunPatch) (now : Nat) : RunRecord where
  id := p.id
  workflow_id := p.workflow_id
  status := p.status
  ref_id := p.ref_id
  ref_type := p.ref_type
  input_params := p.input_params
  output_result := p.output_result
  metadata := p.metadata
  sleep_until := p.sleep_until
  created_at := jsOrNat p.created_at (some now)
  updated_at := some now
  completed_at := p.completed_at

/-- Return value of `updateWorkflowRun`: `{updated: true, id}` or
`{inserted: true, id}`. -/
inductive UpsertResult where
  | inserted (id : String)
  | updated (id : String)
deriving Repr, DecidableEq

/-- `updateWorkflowRun` (worker.ts:717-774): look the run id up; update the
matching row(s) if found, insert otherwise. -/
def updateWorkflowRun (p : RunPatch) (runs : List RunRecord) (now : Nat) :
    List RunRecord × UpsertResult :=
  if runs.any (fun r => r.id = p.id) then
    (runs.map (fun r => if r.id = p.id then applyRunPatch r p now else r),
      .updated p.id)
  else
    (runs ++ [insertRunRecord p now], .inserted p.id)

/-- A row of the `workflow` table. -/
structure WorkflowRecord where
  id : Nat
  name : String := ""
  status : String := ""
  input_params : Option String := none
  output_result : Option String := none
  metadata : Option String := none
  last_run_id : Option String := none
  ref_id : Option String := none
  ref_type : Option String := none
  runs_count : Nat := 0
  created_at : Option Nat := none
  updated_at : Option Nat := none
  completed_at : Option Nat := none
deriving Repr, DecidableEq

/-- A row of the `workflow_steps` table. -/
structure StepRecord where
  id : Nat
  workflow_run_id : Option String := none
  step_name : String := ""
  status : Option String := none
  step_index : Nat := 0
  state : Option String := none
  started_at : Option Nat := none
  completed_at : Option Nat := none
deriving Repr, DecidableEq

/-- A row of the `workflow_step_retries` table. -/
structure RetryRow where
  id : Nat
  workflow_step_id : Nat
  retry_count : Nat
  retry_at : Option Nat := none
  last_error : Option String := none
  created_at : Option Nat := none
deriving Repr, DecidableEq

/-- The durable D1 state: the four relations plus the autoincrement counter
for `workflow.id`. -/
structure Db where
  workflows : List WorkflowRecord := []
  nextWorkflowId : Nat := 1
  runs : List RunRecord := []
  steps : List StepRecord := []
  stepRetries : List RetryRow := []
deriving Repr, DecidableEq

/-- Return value of `syncWorkflowStatus`. -/
inductive SyncResult where
  | skipped
  | runNotFound
  | updated (workflow_id : Nat)
deriving Repr, DecidableEq

/-- The statuses that propagate from a Run to its Workflow
(worker.ts:666). -/
def settledStatuses : List String := ["Completed", "Errored", "Sleeping"]

/-- `syncWorkflowStatus` (worker.ts:664-712): skip unless the incoming run
update has a truthy id and a settled status; look the stored run row up to
find the owning workflow id and the stored `output_result`; then update the
workflow row, copying `run.output_result || storedRun.output_result` and
stamping `completed_at` when the new status is Completed. -/
def syncWorkflowStatus (run : RunPatch) (workflows : List WorkflowRecord)
    (runs : List RunRecord) (now : Nat) : List WorkflowRecord × SyncResult :=
  if !strTruthy run.status || run.id = "" ||
      !(settledStatuses.contains (run.status.getD "")) then
    (workflows, .skipped)
  else
    match runs.find? (fun r => r.id = run.id) with
    | none => (workflows, .runNotFound)
    | some stored =>
      if !natTruthy stored.workflow_id then (workflows, .runNotFound)
      else
        let wid := stored.workflow_id.getD 0
        let newStatus := run.status.getD ""
        (workflows.map (fun w =>
          if w.id = wid then
            let w1 := { w with status := newStatus, updated_at := some now }
            if newStatus = "Completed" then
              { w1 with
                output_result := jsOrStr run.output_result stored.output_result
                completed_at := jsOrNat run.completed_at (some now) }
            else w1
          else w), .updated wid)

/-- SQL `col = ?`: NULL on either side never compares equal. -/
def sqlEqStr (col v : Option String) : Bool :=
  match col, v with
  | some c, some x => c = x
  | _, _ => false

/-- The lookup predicate of `handleStartWorkflow` (worker.ts:288-292):
`name = ? AND (ref_id = ? OR ref_id IS NULL) AND (ref_type = ? OR ref_type IS NULL)`. -/
def looseMatch (name : String) (rid rtype : Option String)
    (w : WorkflowRecord) : Bool :=
  w.name = name && (sqlEqStr w.ref_id rid || w.ref_id = none) &&
    (sqlEqStr w.ref_type rtype || w.ref_type = none)

/-- `handleStartWorkflow` (worker.ts:263-424), the resolve-or-create part plus
the initial run upsert. `params` and `metadata` stand for the already
JSON-serialized blobs; `instanceId` is the generated UUID; the result is
the internal workflow row id that was used. The `ref_id || null` binds
normalize falsy references to NULL. -/
def handleStartWorkflow (workflowType : String) (params : String)
    (ref_id ref_type metadata : Option String) (instanceId : String)
    (db : Db) (now : Nat) : Db × Nat :=
  let rid := if strTruthy ref_id then ref_id else none
  let rtype := if strTruthy ref_type then ref_type else none
  let metaJson := if strTruthy metadata then metadata.getD "" else "\x7b\x7d"
  let runPatch : RunPatch :=
    { id := instanceId
      status := some "Pending"
      ref_id := ref_id
      ref_type := ref_type
      input_params := some params
      output_result := some "\x7b\x7d"
      metadata := some metaJson
      created_at := some now
      updated_at := some now }
  match db.workflows.find? (looseMatch workflowType rid rtype) with
  | some w =>
    let db1 := { db with workflows := db.workflows.map (fun (x : WorkflowRecord) =>
      if x.id = w.id then
        { x with
          status := "Running"
          last_run_id := some instanceId
          runs_count := w.runs_count + 1
          updated_at := some now }
      else x) }
    let patched : RunPatch := { runPatch with workflow_id := some w.id }
    ({ db1 with runs := (updateWorkflowRun patched db1.runs now).1 }, w.id)
  | none =>
    let wid := db.nextWorkflowId
    let neww : WorkflowRecord :=
      { id := wid
        name := workflowType
        status := "Running"
        input_params := some params
        metadata := some metaJson
        last_run_id := some instanceId
        ref_id := rid
        ref_type := rtype
        runs_count := 1
        created_at := some now
        updated_at := some now }
    let db1 := { db with
      workflows := db.workflows ++ [neww]
      nextWorkflowId := wid + 1 }
    let patched : RunPatch := { runPatch with workflow_id := some wid }
    ({ db1 with runs := (updateWorkflowRun patched db1.runs now).1 }, wid)

/-- A step hydrated with its retries (tracker.ts: `step.retries = ...`). -/
structure AssembledStep where
  step : StepRecord
  retries : List RetryRow
deriving Repr, DecidableEq

/-- A run hydrated with its ordered steps (tracker.ts: `workflow.steps = ...`). -/
structure AssembledRun where
  run : RunRecord
  steps : List AssembledStep
deriving Repr, DecidableEq

/-- `ORDER BY retry_count ASC`. -/
abbrev retryCountLe (a b : RetryRow) : Prop := a.retry_count ≤ b.retry_count

/-- `ORDER BY step_index ASC`. -/
abbrev stepIndexLe (a b : StepRecord) : Prop := a.step_index ≤ b.step_index

/-- `ORDER BY created_at DESC` on runs (SQL NULLs sort last under DESC,
matching `getD 0`). -/
abbrev createdDescLe (a b : RunRecord) : Prop :=
  b.created_at.getD 0 ≤ a.created_at.getD 0

/-- Fetch one step's retries, ordered by retry_count ascending
(tracker.ts:172-179). -/
def hydrateStep (db : Db) (s : StepRecord) : AssembledStep :=
  ⟨s, (db.stepRetries.filter (fun rr => rr.workflow_step_id = s.id)).insertionSort
    retryCountLe⟩

/-- Fetch one run's steps ordered by step_index ascending, each hydrated with
its retries (tracker.ts:163-182). -/
def hydrateRun (db : Db) (r : RunRecord) : AssembledRun :=
  ⟨r, (((db.steps.filter (fun s => s.workflow_run_id = some r.id)).insertionSort
    stepIndexLe).map (hydrateStep db))⟩

/-- The parameter object of `queryWorkflows`; destructuring defaults are
applied inside the function. -/
structure QueryParams where
  limit : Option Nat := none
  offset : Option Nat := none
  status : Option String := none
  workflowId : Option String := none
  ref_id : Option String := none
  ref_type : Option String := none
deriving Repr, DecidableEq

/-- `queryWorkflows` (tracker.ts:139-329), the try body: four cases keyed on
which of workflowId / ref_id / ref_type is truthy, each hydrating the
matched runs with steps and retries. Filters follow the SQL exactly:
`col = ?` never matches NULL columns, the status clause is added only when
`status` is truthy, and the list queries sort by created_at descending and
apply OFFSET then LIMIT. -/
def queryWorkflows (p : QueryParams) (db : Db) : List AssembledRun :=
  let limit := p.limit.getD 20
  let offset := p.offset.getD 0
  if strTruthy p.workflowId then
    match db.runs.find? (fun r => some r.id = p.workflowId) with
    | none => []
    | some r => [hydrateRun db r]
  else if strTruthy p.ref_id then
    let matched := db.runs.filter (fun r =>
      sqlEqStr r.ref_id p.ref_id &&
      (!strTruthy p.ref_type || sqlEqStr r.ref_type p.ref_type) &&
      (!strTruthy p.status || sqlEqStr r.status p.status))
    ((((matched.insertionSort createdDescLe).drop offset).take limit).map
      (hydrateRun db))
  else if strTruthy p.ref_type then
    let matched := db.runs.filter (fun r =>
      sqlEqStr r.ref_type p.ref_type &&
      (!strTruthy p.status || sqlEqStr r.status p.status))
    ((((matched.insertionSort createdDescLe).drop offset).take limit).map
      (hydrateRun db))
  else
    let matched := db.runs.filter (fun r =>
      !strTruthy p.status || sqlEqStr r.status p.status)
    ((((matched.insertionSort createdDescLe).drop offset).take limit).map
      (hydrateRun db))

/-- `queryWorkflows` including its catch block (tracker.ts:325-328): when the
underlying storage fails, the error is caught and an empty array is
returned. -/
def queryWorkflowsCaught (db : Except String Db) (p : QueryParams) :
    List AssembledRun :=
  match db with
  | .error _ => []
  | .ok d => queryWorkflows p d

/-- Response of `handleGetWorkflowsByRef`. -/
inductive RefQueryResponse where
  | validationError (msg : String)
  | ok (workflows : List AssembledRun)
deriving Repr, DecidableEq

/-- The runs carried by a successful reference query response. -/
def refQueryRuns : RefQueryResponse → List RunRecord
  | .ok l => l.map (fun a => a.run)
  | .validationError _ => []

/-- `handleGetWorkflowsByRef` (worker.ts:553-635): reject with a validation
error when both references are falsy, otherwise forward to
`queryWorkflows` with `limit || 20` and `offset || 0`. -/
def handleGetWorkflowsByRef (ref_id ref_type status : Option String)
    (limit offset : Option Nat) (db : Db) : RefQueryResponse :=
  if !strTruthy ref_id && !strTruthy ref_type then
    .validationError "Either ref_id or ref_type must be provided"
  else
    .ok (queryWorkflows
      { ref_id := ref_id
        ref_type := ref_type
        status := status
        limit := jsOrNat limit (some 20)
        offset := jsOrNat offset (some 0) } db)

/-- Whether a reference query response is the 400 validation failure. -/
def isValidationError : RefQueryResponse → Bool
  | .validationError _ => true
  | .ok _ => false

/-- One connected WebSocket session: its id and whether `send` throws on it. -/
structure Observer where
  name : String
  raises : Bool
deriving Repr, DecidableEq

/-- The delivery loop of `broadcastUpdate` (tracker.ts:340-342):
`for (const session of this.sessions.values()) session.send(message)`.
There is no per-session try/catch, so a throwing `send` aborts the loop:
the result is the sessions delivered to before the throw, and whether an
exception escaped to the caller. -/
def broadcastDeliver : List Observer → List String × Bool
  | [] => ([], false)
  | o :: rest =>
    if o.raises then ([], true)
    else
      let r := broadcastDeliver rest
      (o.name :: r.1, r.2)

/-- `broadcastUpdate` (tracker.ts:334-343): serialize the update once and
deliver it to every session in registration order until a send throws. -/
def broadcastUpdate (sessions : List Observer) : List String × Bool :=
  broadcastDeliver sessions

/-- The two-call upsert law for runs: the first call (no row with the id yet)
appends exactly the supplied fields with `created_at` defaulted when falsy
and `updated_at` stamped to now; the second call with the same id patches
only the fields present in it, stamps `updated_at`, and leaves every other
row and field unchanged. -/
def runUpsertPairOk (p q : RunPatch) (runs : List RunRecord)
    (now1 now2 : Nat) : Prop :=
  (updateWorkflowRun p runs now1).2 = .inserted p.id ∧
  (updateWorkflowRun p runs now1).1 = runs ++ [insertRunRecord p now1] ∧
  (insertRunRecord p now1).id = p.id ∧
  (insertRunRecord p now1).workflow_id = p.workflow_id ∧
  (insertRunRecord p now1).status = p.status ∧
  (insertRunRecord p now1).ref_id = p.ref_id ∧
  (insertRunRecord p now1).ref_type = p.ref_type ∧
  (insertRunRecord p now1).input_params = p.input_params ∧
  (insertRunRecord p now1).output_result = p.output_result ∧
  (insertRunRecord p now1).metadata = p.metadata ∧
  (insertRunRecord p now1).created_at = jsOrNat p.created_at (some now1) ∧
  (insertRunRecord p now1).updated_at = some now1 ∧
  (updateWorkflowRun q (updateWorkflowRun p runs now1).1 now2).2 = .updated q.id ∧
  (updateWorkflowRun q (updateWorkflowRun p runs now1).1 now2).1 =
    runs ++ [applyRunPatch (insertRunRecord p now1) q now2] ∧
  ∀ r : RunRecord,
    (applyRunPatch r q now2).id = r.id ∧
    (applyRunPatch r q now2).workflow_id = patchField q.workflow_id r.workflow_id ∧
    (applyRunPatch r q now2).status = patchField q.status r.status ∧
    (applyRunPatch r q now2).ref_id = patchField q.ref_id r.ref_id ∧
    (applyRunPatch r q now2).ref_type = patchField q.ref_type r.ref_type ∧
    (applyRunPatch r q now2).input_params = patchField q.input_params r.input_params ∧
    (applyRunPatch r q now2).output_result = patchField q.output_result r.output_result ∧
    (applyRunPatch r q now2).metadata = patchField q.metadata r.metadata ∧
    (applyRunPatch r q now2).created_at = patchField q.created_at r.created_at ∧
    (applyRunPatch r q now2).completed_at = patchField q.completed_at r.completed_at ∧
    (applyRunPatch r q now2).updated_at = some now2

/-- Conclusion of the Completed-propagation law: the owning workflow row gets
status Completed, `updated_at` stamped, the run update's own
`output_result` copied, and `completed_at` stamped; other rows unchanged. -/
def syncCompletedOk (run : RunPatch) (wfs : List WorkflowRecord)
    (runs : List RunRecord) (now wid : Nat) : Prop :=
  (syncWorkflowStatus run wfs runs now).2 = .updated wid ∧
  (syncWorkflowStatus run wfs runs now).1 = wfs.map (fun w =>
    if w.id = wid then
      { w with
        status := "Completed"
        updated_at := some now
        output_result := run.output_result
        completed_at := jsOrNat run.completed_at (some now) }
    else w)

/-- Conclusion of the Completed-propagation fallback law: when the run update
carries no truthy `output_result`, the workflow's `output_result` is set to
the stored Run row's `output_result` (the fallback source is the
`workflow_runs` row), and `completed_at` is stamped. -/
def syncCompletedFallbackOk (run : RunPatch) (stored : RunRecord)
    (wfs : List WorkflowRecord) (runs : List RunRecord) (now wid : Nat) : Prop :=
  (syncWorkflowStatus run wfs runs now).2 = .updated wid ∧
  (syncWorkflowStatus run wfs runs now).1 = wfs.map (fun w =>
    if w.id = wid then
      { w with
        status := "Completed"
        updated_at := some now
        output_result := stored.output_result
        completed_at := jsOrNat run.completed_at (some now) }
    else w)

/-- Conclusion of the resolve-twice law: both resolutions use the same
workflow row id; the first creates the row with counter 1, status Running,
last_run_id and timestamps set; the second leaves the identity fields
alone and exactly increments the counter to 2, re-stamps status Running,
last_run_id and updated_at. -/
def startTwiceOk (name params : String) (ref_id ref_type metadata : Option String)
    (inst1 inst2 : String) (db : Db) (now1 now2 : Nat) : Prop :=
  let rid := if strTruthy ref_id then ref_id else none
  let rtype := if strTruthy ref_type then ref_type else none
  let metaJson := if strTruthy metadata then metadata.getD "" else "\x7b\x7d"
  let r1 := handleStartWorkflow name params ref_id ref_type metadata inst1 db now1
  let r2 := handleStartWorkflow name params ref_id ref_type metadata inst2 r1.1 now2
  let W1 : WorkflowRecord :=
    { id := db.nextWorkflowId
      name := name
      status := "Running"
      input_params := some params
      metadata := some metaJson
      last_run_id := some inst1
      ref_id := rid
      ref_type := rtype
      runs_count := 1
      created_at := some now1
      updated_at := some now1 }
  r1.2 = db.nextWorkflowId ∧
  r2.2 = r1.2 ∧
  r1.1.workflows = db.workflows ++ [W1] ∧
  r2.1.workflows = db.workflows ++
    [{ W1 with
        last_run_id := some inst2
        runs_count := 2
        updated_at := some now2 }]

theorem strTruthy_none : strTruthy none = false := rfl

theorem map_if_not {α : Type} (l : List α) (c : α → Prop) [DecidablePred c]
    (g : α → α) (h : ∀ x ∈ l, ¬ c x) :
    l.map (fun x => if c x then g x else x) = l := by
  induction l with
  | nil => rfl
  | cons a t ih =>
    rw [List.map_cons, if_neg (h a (List.mem_cons_self a t)),
      ih fun x hx => h x (List.mem_cons_of_mem a hx)]

theorem trackStepFailure_spec (s : RetrySettings) (stepId : Option Nat)
    (a b : String) (si : Nat) (e : TrackedError) (now : Nat) :
    (trackStepFailure s stepId a b si e now).retryDelay =
      (if s.backoffType = "exponential" then s.baseDelay * 2 ^ s.currentRetry
       else s.baseDelay * (s.currentRetry + 1)) ∧
    (trackStepFailure s stepId a b si e now).nextRetryTime =
      now + (trackStepFailure s stepId a b si e now).retryDelay ∧
    (trackStepFailure s stepId a b si e now).rethrown.nonRetryable =
      e.nonRetryable := by
  unfold trackStepFailure
  by_cases h : (decide (s.currentRetry + 1 ≤ s.maxRetries) && !e.nonRetryable) = true
  · simp only [h, if_true]
    refine ⟨trivial, trivial, ?_⟩
    simp only [Bool.and_eq_true, Bool.not_eq_true', decide_eq_true_eq] at h
    obtain ⟨hle, hnr⟩ := h
    simp [hnr, Nat.not_lt.mpr hle]
  · simp only [Bool.not_eq_true] at h
    simp [h]

/-- C1: for every step failure caught by trackStep, the computed retry delay
equals baseDelay * 2 ^ currentRetry under exponential backoff and
baseDelay * (currentRetry + 1) under linear backoff, with unspecified
config fields defaulted to maxRetries=3, baseDelay=1000,
backoffType=exponential, currentRetry=0; in particular baseDelay=1000
with currentRetry=2 yields 4000ms under exponential and 3000ms under
linear backoff, and the scheduled next-retry time is now plus the
computed delay. -/
theorem trackStep_backoff_law {α : Type} (ser : α → String)
    (rc : StepRetryConfig) (wfid sn : String) (si : Nat) (stFail : Bool)
    (e : TrackedError) (now : Nat) :
    ((trackStep ser rc wfid sn si stFail (.error e) now).retryDelay =
      some (if (mergeRetryConfig rc).backoffType = "exponential"
        then (mergeRetryConfig rc).baseDelay * 2 ^ (mergeRetryConfig rc).currentRetry
        else (mergeRetryConfig rc).baseDelay * ((mergeRetryConfig rc).currentRetry + 1))) ∧
    ((trackStep ser rc wfid sn si stFail (.error e) now).nextRetryTime =
      (trackStep ser rc wfid sn si stFail (.error e) now).retryDelay.map
        (fun d => now + d)) ∧
    mergeRetryConfig {} =
      { maxRetries := 3, baseDelay := 1000, backoffType := "exponential",
        currentRetry := 0 } ∧
    (trackStep (fun v : String => v) { currentRetry := some 2 } "w" "s" 0 false
      (.error { message := "x" }) now).retryDelay = some 4000 ∧
    (trackStep (fun v : String => v)
      { currentRetry := some 2, backoffType := some "linear" } "w" "s" 0 false
      (.error { message := "x" }) now).retryDelay = some 3000 := by
  obtain ⟨h1, h2, h3⟩ :=
    trackStepFailure_spec (mergeRetryConfig rc) none wfid sn si e now
  refine ⟨?_, ?_, rfl, ?_, ?_⟩
  · show some (trackStepFailure (mergeRetryConfig rc) none wfid sn si e now).retryDelay = _
    rw [h1]
  · show some (trackStepFailure (mergeRetryConfig rc) none wfid sn si e now).nextRetryTime = _
    rw [h2]
    rfl
  · show some (trackStepFailure (mergeRetryConfig { currentRetry := some 2 }) none
      "w" "s" 0 { message := "x" } now).retryDelay = _
    rw [(trackStepFailure_spec _ none "w" "s" 0 { message := "x" } now).1]
    rfl
  · show some (trackStepFailure
      (mergeRetryConfig { currentRetry := some 2, backoffType := some "linear" }) none
      "w" "s" 0 { message := "x" } now).retryDelay = _
    rw [(trackStepFailure_spec _ none "w" "s" 0 { message := "x" } now).1]
    rfl

/-- C2 (code bug): the assignment `error.nonRetryable = true` at
integration.ts:259 is unreachable, because it sits inside
`if (isRetryable)` whose guard already requires `nextRetry <= maxRetries`
and `!error.nonRetryable`; so on every failure the rethrown error keeps
the nonRetryable flag it arrived with. In particular, at the failing
input of the claim — defaults (maxRetries=3) with currentRetry=3, the 4th
failure — the step is recorded as Failed but the rethrown error is NOT
marked non-retryable, contradicting the claim and the code's own comment. -/
theorem trackStep_exhaustion_never_marks_nonretryable :
    (∀ (α : Type) (ser : α → String) (rc : StepRetryConfig) (wfid sn : String)
      (si : Nat) (stFail : Bool) (e : TrackedError) (now : Nat),
      ∃ e2, (trackStep ser rc wfid sn si stFail (.error e) now).result =
          .error e2 ∧ e2.nonRetryable = e.nonRetryable) ∧
    ((trackStep (fun v : String => v) { currentRetry := some 3 } "w" "s" 0 false
        (.error { message := "boom" }) 5).updates.map
          (fun u => u.status) = ["Running", "Failed"]) ∧
    ((trackStep (fun v : String => v) { currentRetry := some 3 } "w" "s" 0 false
        (.error { message := "boom" }) 5).result =
      .error { message := "boom", nonRetryable := false }) := by
  refine ⟨?_, rfl, rfl⟩
  intro α ser rc wfid sn si stFail e now
  exact ⟨(trackStepFailure (mergeRetryConfig rc) none wfid sn si e now).rethrown,
    rfl, (trackStepFailure_spec (mergeRetryConfig rc) none wfid sn si e now).2.2⟩

/-- C10: when the step's execute function resolves to a value v, trackStep
returns exactly v, even when the attempt to record the step start fails:
the step-start tracking error is caught and swallowed, execution of the
step proceeds, and only the completion update is sent. -/
theorem trackStep_returns_result_despite_start_failure {α : Type}
    (ser : α → String) (rc : StepRetryConfig) (wfid sn : String) (si : Nat)
    (v : α) (now : Nat) :
    (∀ stFail, (trackStep ser rc wfid sn si stFail (.ok v) now).result = .ok v) ∧
    (trackStep ser rc wfid sn si true (.ok v) now).updates =
      [{ id := none, workflow_instance_id := wfid, step_name := sn,
         status := "Completed", step_index := si, state := .result (ser v),
         started_at := none, completed_at := some now }] := by
  refine ⟨?_, rfl⟩
  intro stFail
  cases stFail <;> rfl

/-- C3 counterexample: `updateWorkflowRun` called when no run with the id
exists stamps `updated_at` to now unconditionally, overwriting a supplied
value — inserting `{id := "r1", updated_at := some 5}` at now = 7 stores
`updated_at = some 7`, not the supplied `some 5`, so the inserted row is
not exactly the supplied fields with timestamps defaulted only if absent. -/
theorem updateWorkflowRun_insert_overwrites_updated_at :
    ((updateWorkflowRun { id := "r1", updated_at := some 5 } [] 7).1.map
      (fun r => r.updated_at)) = [some 7] ∧ (some 7 : Option Nat) ≠ some 5 :=
  ⟨rfl, by decide⟩

/-- C3 (amended): when no run with the id exists, `updateWorkflowRun` inserts
a new row containing the supplied fields with `created_at` defaulted to now
if absent and `updated_at` always stamped to now (overwriting any supplied
value), and reports that it inserted; called again with the same id it
applies a partial update changing only the fields present in the call plus
stamping `updated_at` to now, leaving all other stored fields and rows
unchanged, and reports that it updated. -/
theorem updateWorkflowRun_upsert_pair (p q : RunPatch) (runs : List RunRecord)
    (now1 now2 : Nat) (hq : q.id = p.id) (h : ∀ r ∈ runs, r.id ≠ p.id) :
    runUpsertPairOk p q runs now1 now2 := by
  have hAny1 : (runs.any fun r => r.id = p.id) = false := by
    rw [List.any_eq_false]
    intro r hr
    simpa using h r hr
  have h1 : updateWorkflowRun p runs now1 =
      (runs ++ [insertRunRecord p now1], .inserted p.id) := by
    simp [updateWorkflowRun, hAny1]
  have hAny2 : ((runs ++ [insertRunRecord p now1]).any
      fun r => r.id = q.id) = true := by
    rw [List.any_eq_true]
    exact ⟨insertRunRecord p now1, by simp, by simp [insertRunRecord, hq]⟩
  have h2 : updateWorkflowRun q (runs ++ [insertRunRecord p now1]) now2 =
      (runs ++ [applyRunPatch (insertRunRecord p now1) q now2], .updated q.id) := by
    simp only [updateWorkflowRun, hAny2, if_true]
    rw [List.map_append]
    rw [map_if_not (c := fun r => r.id = q.id) runs _
      (fun r hr => by rw [hq]; exact h r hr)]
    simp [insertRunRecord, hq]
  refine ⟨by rw [h1], by rw [h1], rfl, rfl, rfl, rfl, rfl, rfl, rfl, rfl, rfl,
    rfl, by rw [h1, h2], by rw [h1, h2], ?_⟩
  intro r
  exact ⟨rfl, rfl, rfl, rfl, rfl, rfl, rfl, rfl, rfl, rfl, rfl⟩

/-- C3 witness: the amended upsert law at a concrete input — inserting run
"r1" with status Pending into an empty table and patching it with status
Running. -/
theorem updateWorkflowRun_upsert_pair_witness :
    (∀ r ∈ ([] : List RunRecord), r.id ≠ "r1") ∧
    runUpsertPairOk { id := "r1", status := some "Pending" }
      { id := "r1", status := some "Running" } [] 1 2 :=
  ⟨by simp, updateWorkflowRun_upsert_pair
    { id := "r1", status := some "Pending" }
    { id := "r1", status := some "Running" } [] 1 2 rfl (by simp)⟩

/-- C4: status propagation to the parent workflow is a no-op for Run updates
with status Running or Pending (the whole store is left unchanged and the
call reports skipped); a Run update with status Completed sets the owning
workflow's status to Completed and copies the run update's output_result
into the workflow (stamping updated_at and completed_at). -/
theorem syncWorkflowStatus_propagation (run : RunPatch) (stored : RunRecord)
    (wfs : List WorkflowRecord) (runs : List RunRecord) (now wid : Nat)
    (hs : run.status = some "Completed") (hid : run.id ≠ "")
    (hfind : runs.find? (fun r => r.id = run.id) = some stored)
    (hwid : stored.workflow_id = some wid) (hw0 : wid ≠ 0)
    (hout : strTruthy run.output_result = true) :
    (∀ (r2 : RunPatch) (wfs2 : List WorkflowRecord) (runs2 : List RunRecord)
      (now2 : Nat), r2.status = some "Running" ∨ r2.status = some "Pending" →
      syncWorkflowStatus r2 wfs2 runs2 now2 = (wfs2, .skipped)) ∧
    syncCompletedOk run wfs runs now wid := by
  constructor
  · intro r2 wfs2 runs2 now2 hst
    rcases hst with hst | hst <;>
      simp [syncWorkflowStatus, hst, strTruthy, settledStatuses]
  · unfold syncCompletedOk syncWorkflowStatus
    simp only [hs, hfind, hwid, strTruthy, settledStatuses]
    simp [hid, hw0, natTruthy, jsOrStr, hout]

/-- C5 counterexample: for a propagated Completed update with no output_result
in the update, the workflow's output_result is overwritten with the stored
Run row's value ("runStored"), not left at the workflow's own existing
value ("wfold") as the claim states. -/
theorem syncWorkflowStatus_fallback_is_run_row :
    ((syncWorkflowStatus { id := "r1", status := some "Completed" }
      [{ id := 1, name := "wf", status := "Running", output_result := some "wfold" }]
      [{ id := "r1", workflow_id := some 1, output_result := some "runStored" }]
      9).1.map (fun w => w.output_result)) = [some "runStored"] ∧
    (some "runStored" : Option String) ≠ some "wfold" :=
  ⟨rfl, by decide⟩

/-- C5 (amended): for every propagated Run update with status Completed whose
update carries no truthy output_result, the parent workflow's
output_result is set to the stored Run row's output_result — the fallback
source is the workflow_runs record, not the Workflow record — and
completed_at is stamped (to the update's completed_at when truthy,
otherwise to now). -/
theorem syncWorkflowStatus_completed_fallback (run : RunPatch)
    (stored : RunRecord) (wfs : List WorkflowRecord) (runs : List RunRecord)
    (now wid : Nat)
    (hs : run.status = some "Completed") (hid : run.id ≠ "")
    (hfind : runs.find? (fun r => r.id = run.id) = some stored)
    (hwid : stored.workflow_id = some wid) (hw0 : wid ≠ 0)
    (hout : strTruthy run.output_result = false) :
    syncCompletedFallbackOk run stored wfs runs now wid := by
  unfold syncCompletedFallbackOk syncWorkflowStatus
  simp only [hs, hfind, hwid, strTruthy, settledStatuses]
  simp [hid, hw0, natTruthy, jsOrStr, hout]

/-- C4 witness: the propagation law at a concrete input — run "r1" completing
with output "out1", owned by workflow 1. -/
theorem syncWorkflowStatus_propagation_witness :
    (({ id := "r1", status := some "Completed", output_result := some "out1" } : RunPatch).status = some "Completed") ∧
    (({ id := "r1", status := some "Completed", output_result := some "out1" } : RunPatch).id ≠ "") ∧
    (([{ id := "r1", workflow_id := some 1 }] : List RunRecord).find?
      (fun r => r.id = ({ id := "r1", status := some "Completed", output_result := some "out1" } : RunPatch).id) =
      some { id := "r1", workflow_id := some 1 }) ∧
    (({ id := "r1", workflow_id := some 1 } : RunRecord).workflow_id = some 1) ∧
    (1 : Nat) ≠ 0 ∧
    strTruthy (some "out1") = true ∧
    ((∀ (r2 : RunPatch) (wfs2 : List WorkflowRecord) (runs2 : List RunRecord)
      (now2 : Nat), r2.status = some "Running" ∨ r2.status = some "Pending" →
      syncWorkflowStatus r2 wfs2 runs2 now2 = (wfs2, .skipped)) ∧
    syncCompletedOk
      { id := "r1", status := some "Completed", output_result := some "out1" }
      [{ id := 1, name := "wf", status := "Running" }]
      [{ id := "r1", workflow_id := some 1 }] 9 1) :=
  ⟨rfl, by decide, rfl, rfl, by decide, rfl,
    syncWorkflowStatus_propagation
      { id := "r1", status := some "Completed", output_result := some "out1" }
      { id := "r1", workflow_id := some 1 }
      [{ id := 1, name := "wf", status := "Running" }]
      [{ id := "r1", workflow_id := some 1 }] 9 1
      rfl (by decide) rfl rfl (by decide) rfl⟩

/-- C5 witness: the amended fallback law at a concrete input — run "r1"
completing with no output_result in the update, the stored run row holding
"runStored". -/
theorem syncWorkflowStatus_completed_fallback_witness :
    (({ id := "r1", status := some "Completed" } : RunPatch).status =
      some "Completed") ∧
    (({ id := "r1", status := some "Completed" } : RunPatch).id ≠ "") ∧
    (([{ id := "r1", workflow_id := some 1, output_result := some "runStored" }] : List RunRecord).find?
      (fun r => r.id = ({ id := "r1", status := some "Completed" } : RunPatch).id) =
      some { id := "r1", workflow_id := some 1, output_result := some "runStored" }) ∧
    (({ id := "r1", workflow_id := some 1, output_result := some "runStored" } : RunRecord).workflow_id = some 1) ∧
    (1 : Nat) ≠ 0 ∧
    strTruthy (({ id := "r1", status := some "Completed" }
      : RunPatch).output_result) = false ∧
    syncCompletedFallbackOk { id := "r1", status := some "Completed" }
      { id := "r1", workflow_id := some 1, output_result := some "runStored" }
      [{ id := 1, name := "wf", status := "Running", output_result := some "wfold" }]
      [{ id := "r1", workflow_id := some 1, output_result := some "runStored" }]
      9 1 :=
  ⟨rfl, by decide, rfl, rfl, by decide, rfl,
    syncWorkflowStatus_completed_fallback
      { id := "r1", status := some "Completed" }
      { id := "r1", workflow_id := some 1, output_result := some "runStored" }
      [{ id := 1, name := "wf", status := "Running", output_result := some "wfold" }]
      [{ id := "r1", workflow_id := some 1, output_result := some "runStored" }]
      9 1 rfl (by decide) rfl rfl (by decide) rfl⟩

theorem find?_append_of_none {α : Type} {l1 l2 : List α} {p : α → Bool}
    (h : l1.find? p = none) : (l1 ++ l2).find? p = l2.find? p := by
  induction l1 with
  | nil => rfl
  | cons a t ih =>
    by_cases hpa : p a = true
    · rw [List.find?_cons_of_pos _ hpa] at h
      exact absurd h (by simp)
    · rw [List.find?_cons_of_neg _ hpa] at h
      rw [List.cons_append, List.find?_cons_of_neg _ hpa]
      exact ih h

theorem handleStartWorkflow_notfound (name params : String)
    (ref_id ref_type metadata : Option String) (inst : String)
    (db : Db) (now : Nat)
    (h : db.workflows.find? (looseMatch name
      (if strTruthy ref_id then ref_id else none)
      (if strTruthy ref_type then ref_type else none)) = none) :
    (handleStartWorkflow name params ref_id ref_type metadata inst db now).2 =
      db.nextWorkflowId ∧
    (handleStartWorkflow name params ref_id ref_type metadata inst db now).1.workflows =
      db.workflows ++
      [{ id := db.nextWorkflowId
         name := name
         status := "Running"
         input_params := some params
         metadata := some (if strTruthy metadata then metadata.getD "" else "\x7b\x7d")
         last_run_id := some inst
         ref_id := if strTruthy ref_id then ref_id else none
         ref_type := if strTruthy ref_type then ref_type else none
         runs_count := 1
         created_at := some now
         updated_at := some now }] := by
  simp only [handleStartWorkflow]
  rw [h]
  exact ⟨rfl, rfl⟩

theorem handleStartWorkflow_found (name params : String)
    (ref_id ref_type metadata : Option String) (inst : String)
    (db : Db) (now : Nat) (w : WorkflowRecord)
    (h : db.workflows.find? (looseMatch name
      (if strTruthy ref_id then ref_id else none)
      (if strTruthy ref_type then ref_type else none)) = some w) :
    (handleStartWorkflow name params ref_id ref_type metadata inst db now).2 = w.id ∧
    (handleStartWorkflow name params ref_id ref_type metadata inst db now).1.workflows =
      db.workflows.map (fun (x : WorkflowRecord) =>
        if x.id = w.id then
          { x with
            status := "Running"
            last_run_id := some inst
            runs_count := w.runs_count + 1
            updated_at := some now }
        else x) := by
  simp only [handleStartWorkflow]
  rw [h]
  exact ⟨rfl, rfl⟩

/-- C6: for every workflow identity key (name, ref_id, ref_type), starting the
workflow twice sequentially from a store with no matching workflow yields
the same internal workflow id both times; the first resolution creates the
row with run counter 1, the second increments the counter by exactly 1,
sets status Running, sets last_run_id and stamps updated_at, leaving every
pre-existing workflow row unchanged. -/
theorem handleStartWorkflow_resolve_twice (name params : String)
    (ref_id ref_type metadata : Option String) (inst1 inst2 : String)
    (db : Db) (now1 now2 : Nat)
    (hnomatch : ∀ w ∈ db.workflows,
      looseMatch name (if strTruthy ref_id then ref_id else none)
        (if strTruthy ref_type then ref_type else none) w = false)
    (hbound : ∀ w ∈ db.workflows, w.id < db.nextWorkflowId) :
    startTwiceOk name params ref_id ref_type metadata inst1 inst2 db now1 now2 := by
  have hf1 : db.workflows.find? (looseMatch name
      (if strTruthy ref_id then ref_id else none)
      (if strTruthy ref_type then ref_type else none)) = none :=
    List.find?_eq_none.mpr (fun w hw => by simp [hnomatch w hw])
  obtain ⟨e1i, e1w⟩ := handleStartWorkflow_notfound name params ref_id ref_type
    metadata inst1 db now1 hf1
  unfold startTwiceOk
  refine ⟨e1i, ?_, e1w, ?_⟩
  all_goals {
    have hmatch : looseMatch name
        (if strTruthy ref_id then ref_id else none)
        (if strTruthy ref_type then ref_type else none)
        { id := db.nextWorkflowId
          name := name
          status := "Running"
          input_params := some params
          metadata := some (if strTruthy metadata then metadata.getD "" else "\x7b\x7d")
          last_run_id := some inst1
          ref_id := if strTruthy ref_id then ref_id else none
          ref_type := if strTruthy ref_type then ref_type else none
          runs_count := 1
          created_at := some now1
          updated_at := some now1 } = true := by
      unfold looseMatch sqlEqStr
      rcases href : (if strTruthy ref_id then ref_id else none) with _ | r <;>
        rcases htref : (if strTruthy ref_type then ref_type else none) with _ | t <;>
        simp
    have hf2 : (handleStartWorkflow name params ref_id ref_type metadata inst1
        db now1).1.workflows.find? (looseMatch name
          (if strTruthy ref_id then ref_id else none)
          (if strTruthy ref_type then ref_type else none)) =
        some { id := db.nextWorkflowId
               name := name
               status := "Running"
               input_params := some params
               metadata := some (if strTruthy metadata then metadata.getD "" else "\x7b\x7d")
               last_run_id := some inst1
               ref_id := if strTruthy ref_id then ref_id else none
               ref_type := if strTruthy ref_type then ref_type else none
               runs_count := 1
               created_at := some now1
               updated_at := some now1 } := by
      rw [e1w, find?_append_of_none hf1, List.find?_cons_of_pos _ hmatch]
    obtain ⟨e2i, e2w⟩ := handleStartWorkflow_found name params ref_id ref_type
      metadata inst2 _ now2 _ hf2
    first
    | (rw [e2i, e1i])
    | (rw [e2w, e1w, List.map_append,
        map_if_not (c := fun (x : WorkflowRecord) => x.id = db.nextWorkflowId)
          db.workflows _ (fun w hw => Nat.ne_of_lt (hbound w hw)),
        List.map_singleton, if_pos rfl])
  }

/-- C6 witness: the resolve-twice law on an empty store, with identity key
("wf", "r", "t") and generated run ids "i1" then "i2". -/
theorem handleStartWorkflow_resolve_twice_witness :
    (∀ w ∈ ({} : Db).workflows,
      looseMatch "wf" (if strTruthy (some "r") then some "r" else none)
        (if strTruthy (some "t") then some "t" else none) w = false) ∧
    (∀ w ∈ ({} : Db).workflows, w.id < ({} : Db).nextWorkflowId) ∧
    startTwiceOk "wf" "p" (some "r") (some "t") none "i1" "i2" {} 1 2 :=
  ⟨by simp, by simp,
    handleStartWorkflow_resolve_twice "wf" "p" (some "r") (some "t") none
      "i1" "i2" {} 1 2 (by simp) (by simp)⟩

/-- C7: a reference-lookup request fails with a validation error (before any
query) if and only if both ref_id and ref_type are falsy; a request with
only ref_type present succeeds and returns exactly the runs whose ref_type
matches, further filtered by status when given (shown here under paging
that does not truncate: falsy offset and at most limit matches). -/
theorem handleGetWorkflowsByRef_validation (ref_id ref_type status : Option String)
    (limit offset : Option Nat) (db : Db)
    (hrid : strTruthy ref_id = false) (hrt : strTruthy ref_type = true)
    (hoff : natTruthy offset = false)
    (hlen : (db.runs.filter (fun r => sqlEqStr r.ref_type ref_type &&
      (!strTruthy status || sqlEqStr r.status status))).length ≤
      (jsOrNat limit (some 20)).getD 20) :
    (∀ (rid2 rt2 st2 : Option String) (l2 o2 : Option Nat) (db2 : Db),
      isValidationError (handleGetWorkflowsByRef rid2 rt2 st2 l2 o2 db2) =
        (!strTruthy rid2 && !strTruthy rt2)) ∧
    List.Perm
      (refQueryRuns (handleGetWorkflowsByRef ref_id ref_type status limit offset db))
      (db.runs.filter (fun r => sqlEqStr r.ref_type ref_type &&
        (!strTruthy status || sqlEqStr r.status status))) ∧
    (∀ r ∈ refQueryRuns (handleGetWorkflowsByRef ref_id ref_type status limit offset db),
      sqlEqStr r.ref_type ref_type = true ∧
      (strTruthy status = true → sqlEqStr r.status status = true)) := by
  have hoff0 : jsOrNat offset (some 0) = some 0 := by
    unfold jsOrNat
    rw [hoff]
    simp
  have hq : handleGetWorkflowsByRef ref_id ref_type status limit offset db =
      .ok (((db.runs.filter (fun r => sqlEqStr r.ref_type ref_type &&
        (!strTruthy status || sqlEqStr r.status status))).insertionSort
          createdDescLe).map (hydrateRun db)) := by
    unfold handleGetWorkflowsByRef queryWorkflows
    simp only [hrid, hrt, hoff0, Bool.not_true, Bool.not_false, Bool.true_and,
      Bool.false_and, Bool.and_false, Bool.false_eq_true, Bool.true_eq_false,
      if_false, if_true, ite_false, ite_true, strTruthy_none,
      Option.getD_some, List.drop_zero]
    rw [List.take_of_length_le]
    rw [List.length_insertionSort]
    exact hlen
  have hperm : List.Perm
      (refQueryRuns (handleGetWorkflowsByRef ref_id ref_type status limit offset db))
      (db.runs.filter (fun r => sqlEqStr r.ref_type ref_type &&
        (!strTruthy status || sqlEqStr r.status status))) := by
    rw [hq]
    show (((db.runs.filter _).insertionSort createdDescLe).map
      (hydrateRun db)).map (fun a => a.run) |>.Perm _
    rw [List.map_map]
    rw [show ((fun (a : AssembledRun) => a.run) ∘ hydrateRun db) =
      (fun r => r) from rfl]
    rw [List.map_id']
    exact List.perm_insertionSort _ _
  refine ⟨?_, hperm, ?_⟩
  · intro rid2 rt2 st2 l2 o2 db2
    unfold handleGetWorkflowsByRef isValidationError
    cases hb : (!strTruthy rid2 && !strTruthy rt2) <;> simp [hb]
  · intro r hr
    have hrm := (hperm.mem_iff).mp hr
    have hf := List.mem_filter.mp hrm
    have h2 := hf.2
    simp only [Bool.and_eq_true] at h2
    refine ⟨h2.1, ?_⟩
    intro hst
    have hor := h2.2
    rw [hst] at hor
    simpa using hor

/-- C7 witness: the validation law at a concrete store — three runs, two with
ref_type "order", queried with only ref_type present and default paging. -/
theorem handleGetWorkflowsByRef_validation_witness :
    strTruthy (none : Option String) = false ∧
    strTruthy (some "order") = true ∧
    natTruthy (none : Option Nat) = false ∧
    (({ runs := [{ id := "a", ref_type := some "order", created_at := some 3 }, { id := "b", ref_type := some "other", created_at := some 2 }, { id := "c", ref_type := some "order", created_at := some 1 }] } : Db).runs.filter
      (fun r => sqlEqStr r.ref_type (some "order") && (!strTruthy (none : Option String) || sqlEqStr r.status (none : Option String)))).length ≤
      (jsOrNat (none : Option Nat) (some 20)).getD 20 ∧
    ((∀ (rid2 rt2 st2 : Option String) (l2 o2 : Option Nat) (db2 : Db),
      isValidationError (handleGetWorkflowsByRef rid2 rt2 st2 l2 o2 db2) =
        (!strTruthy rid2 && !strTruthy rt2)) ∧
    List.Perm
      (refQueryRuns (handleGetWorkflowsByRef none (some "order") none none none
        ({ runs := [{ id := "a", ref_type := some "order", created_at := some 3 }, { id := "b", ref_type := some "other", created_at := some 2 }, { id := "c", ref_type := some "order", created_at := some 1 }] } : Db)))
      (({ runs := [{ id := "a", ref_type := some "order", created_at := some 3 }, { id := "b", ref_type := some "other", created_at := some 2 }, { id := "c", ref_type := some "order", created_at := some 1 }] } : Db).runs.filter
        (fun r => sqlEqStr r.ref_type (some "order") && (!strTruthy (none : Option String) || sqlEqStr r.status (none : Option String)))) ∧
    (∀ r ∈ refQueryRuns (handleGetWorkflowsByRef none (some "order") none none none
        ({ runs := [{ id := "a", ref_type := some "order", created_at := some 3 }, { id := "b", ref_type := some "other", created_at := some 2 }, { id := "c", ref_type := some "order", created_at := some 1 }] } : Db)),
      sqlEqStr r.ref_type (some "order") = true ∧
      (strTruthy (none : Option String) = true →
        sqlEqStr r.status (none : Option String) = true))) :=
  ⟨rfl, rfl, rfl, by decide,
    handleGetWorkflowsByRef_validation none (some "order") none none none
      ({ runs := [{ id := "a", ref_type := some "order", created_at := some 3 }, { id := "b", ref_type := some "other", created_at := some 2 }, { id := "c", ref_type := some "order", created_at := some 1 }] } : Db) rfl rfl rfl (by decide)⟩

theorem broadcastDeliver_append (pre post : List Observer) (o : Observer)
    (hpre : ∀ x ∈ pre, x.raises = false) (ho : o.raises = true) :
    broadcastDeliver (pre ++ o :: post) = (pre.map (fun x => x.name), true) := by
  induction pre with
  | nil => simp [broadcastDeliver, ho]
  | cons a t ih =>
    have ha : a.raises = false := hpre a (List.mem_cons_self a t)
    have iht := ih (fun x hx => hpre x (List.mem_cons_of_mem a hx))
    rw [List.cons_append]
    unfold broadcastDeliver
    simp [ha, iht]

/-- C8 counterexample: with three subscribed observers where the first one's
sink raises on delivery, the other two receive nothing and the exception
escapes to the broadcast caller — delivery of an update is not isolated
per observer. -/
theorem broadcastUpdate_raise_blocks_rest :
    broadcastUpdate [⟨"a", true⟩, ⟨"b", false⟩, ⟨"c", false⟩] = ([], true) ∧
    "b" ∉ (broadcastUpdate [⟨"a", true⟩, ⟨"b", false⟩, ⟨"c", false⟩]).1 ∧
    "c" ∉ (broadcastUpdate [⟨"a", true⟩, ⟨"b", false⟩, ⟨"c", false⟩]).1 :=
  ⟨rfl, by decide, by decide⟩

/-- C8 (amended): broadcast delivery proceeds in registration order; the
observers registered before a raising observer do receive the update, but
a raising sink prevents every later-registered observer from receiving it,
and the failure escalates to the broadcast caller. -/
theorem broadcastUpdate_prefix_delivery (pre post : List Observer)
    (o : Observer) (hpre : ∀ x ∈ pre, x.raises = false)
    (ho : o.raises = true) :
    broadcastUpdate (pre ++ o :: post) = (pre.map (fun x => x.name), true) := by
  unfold broadcastUpdate
  exact broadcastDeliver_append pre post o hpre ho

/-- C8 witness: the amended delivery law at a concrete input — observers
"a" (healthy), "x" (raising), "c" (healthy): only "a" is delivered to and
the failure escapes. -/
theorem broadcastUpdate_prefix_delivery_witness :
    (∀ x ∈ [Observer.mk "a" false], x.raises = false) ∧
    (Observer.mk "x" true).raises = true ∧
    broadcastUpdate ([Observer.mk "a" false] ++ Observer.mk "x" true ::
      [Observer.mk "c" false]) = (["a"], true) :=
  ⟨by decide, rfl,
    broadcastUpdate_prefix_delivery [Observer.mk "a" false]
      [Observer.mk "c" false] (Observer.mk "x" true) (by decide) rfl⟩

/-- C9 counterexample: a failed storage operation makes queryWorkflows return
the empty list — the very same value an empty store successfully returns —
so the caller cannot distinguish a failed query from an empty success. -/
theorem queryWorkflows_failure_indistinguishable :
    queryWorkflowsCaught (.error "db failure") {} = [] ∧
    queryWorkflowsCaught (.ok {}) {} = [] ∧
    queryWorkflowsCaught (.error "db failure") {} =
      queryWorkflowsCaught (.ok {}) {} :=
  ⟨rfl, rfl, rfl⟩

/-- C9 (amended): for every query whose underlying storage operation fails,
queryWorkflows catches the error (tracker.ts:325-328) and returns the
empty list, which is exactly the successful result on an empty store — a
failure signal indistinguishable from an empty success. -/
theorem queryWorkflows_caught_returns_empty (e : String) (p : QueryParams) :
    queryWorkflowsCaught (.error e) p = [] ∧
    queryWorkflowsCaught (.ok { runs := [] }) p =
      queryWorkflowsCaught (.error e) p := by
  refine ⟨rfl, ?_⟩
  show queryWorkflows p ({ runs := [] } : Db) = []
  unfold queryWorkflows
  split
  · simp
  · split
    · simp
    · split <;> simp

end Flowflare
